import Mathlib

/-!
Verification development for the tg-shop-bot payment subsystem.

The definitions below are a shallow embedding of the Python sources:
  * `database/models.py`  — the enums and the columns that the payment
    reconciliation code reads or writes (untouched columns are omitted);
  * `services/nowpayments.py` — `map_payment_status`,
    `process_ipn_callback`, `_award_loyalty_points`,
    `_process_digital_delivery`, `verify_ipn_signature`;
  * `web/app.py` — the `payment_ipn` webhook endpoint.

Modelling conventions:
  * Python floats holding currency amounts are modelled as rationals.
  * Timestamps are integers (seconds); `datetime.now(timezone.utc)` becomes
    an explicit `now : Int` argument; `timedelta(days = d)` is `d * 86400`.
  * `uuid.uuid4().hex` (fresh download tokens) becomes an explicit token
    supply `tokens : Nat → String`, one token per line-item position.
  * The HMAC-SHA512 hex digest used by `verify_ipn_signature` is an explicit
    function argument `hmacHex : String → String → String` (key, body);
    `hmac.compare_digest` is string equality.  The webhook control flow
    depends only on whether the recomputed digest equals the header.
  * A SQLAlchemy session is modelled as functional state passing on a
    `Store`; a session closed without commit discards its writes, which the
    embedding renders by returning the original store on exception paths.
-/

namespace TgShop

/-- Payment statuses, from `database.models.PaymentStatus`. -/
inductive PaymentStatus
  | PENDING
  | WAITING
  | CONFIRMING
  | CONFIRMED
  | SENDING
  | PARTIALLY_PAID
  | FINISHED
  | FAILED
  | REFUNDED
  | EXPIRED
  deriving DecidableEq, Repr

/-- Order statuses, from `database.models.OrderStatus`. -/
inductive OrderStatus
  | PENDING
  | PAID
  | PROCESSING
  | SHIPPED
  | DELIVERED
  | CANCELLED
  | REFUNDED
  deriving DecidableEq, Repr

/-- Product kinds, from `database.models.ProductType`. -/
inductive ProductType
  | DIGITAL
  | PHYSICAL
  deriving DecidableEq, Repr

/-- Python `int(x)` on a float: truncation toward zero, on rationals. -/
def pyInt (q : ℚ) : ℤ := if 0 ≤ q then ⌊q⌋ else ⌈q⌉

/-- Python `x or d` for an optional integer column: `None` and `0` are falsy. -/
def pyOrInt (x : Option ℤ) (d : ℤ) : ℤ :=
  match x with
  | none => d
  | some v => if v = 0 then d else v

/-- Python truthiness test `not x` for an optional string: `None` and the
empty string are falsy. -/
def falsyStr (x : Option String) : Bool :=
  match x with
  | none => true
  | some s => s = ""

/-- The columns of `users` that the fulfillment handlers mutate. -/
structure User where
  id : ℤ
  loyalty_points : ℤ
  total_spent : ℚ
  total_orders : ℤ
  deriving DecidableEq, Repr

/-- The columns of `products` that digital delivery reads. -/
structure Product where
  product_type : ProductType
  digital_file_url : Option String
  download_limit : Option ℤ
  download_expiry_days : Option ℤ
  deriving DecidableEq, Repr

/-- One entry of the `download_links` JSON list built by
`_process_digital_delivery`. -/
structure DownloadLink where
  url : String
  token : String
  expires_at : ℤ
  download_limit : ℤ
  deriving DecidableEq, Repr

/-- The columns of `order_items` that digital delivery reads or writes. -/
structure OrderItem where
  product : Product
  download_links : Option (List DownloadLink)
  download_expires_at : Option ℤ
  deriving DecidableEq, Repr

/-- The columns of `orders` that the reconciliation engine reads or writes.
Line items are held inline (`Order.items` relationship). -/
structure Order where
  id : ℤ
  order_number : String
  user_id : ℤ
  status : OrderStatus
  payment_status : PaymentStatus
  total_amount : ℚ
  updated_at : ℤ
  items : List OrderItem
  deriving DecidableEq, Repr

/-- A row of `loyalty_transactions`, as built by `_award_loyalty_points`. -/
structure LoyaltyTransaction where
  user_id : ℤ
  order_id : ℤ
  points : ℤ
  kind : String
  description : String
  reference : String
  deriving DecidableEq, Repr

/-- The columns of `payments` that `process_ipn_callback` reads or writes. -/
structure Payment where
  payment_id : String
  order_id : ℤ
  payment_status : PaymentStatus
  actually_paid : ℚ
  actually_paid_currency : Option String
  txn_id : Option String
  network : Option String
  updated_at : ℤ
  deriving DecidableEq, Repr

/-- The database state touched by the payment subsystem. -/
structure Store where
  payments : List Payment
  orders : List Order
  users : List User
  loyalty_transactions : List LoyaltyTransaction
  deriving DecidableEq, Repr

/-- The fields of the IPN JSON body that `process_ipn_callback` reads:
`payment_id`, `payment_status`, `actually_paid`, `actually_paid_currency`
and the `outcome` object's `txid` / `network`. -/
structure IpnData where
  payment_id : Option String
  payment_status : Option String
  actually_paid : Option ℚ
  actually_paid_currency : Option String
  outcome_txid : Option String
  outcome_network : Option String
  deriving DecidableEq, Repr

/-- Result of `process_ipn_callback`: the returned boolean, the store after
commit, and an instrumentation flag recording whether the
`new_status == FINISHED and old_status != FINISHED` branch (the single
fulfillment trigger point) was taken. -/
structure CallbackResult where
  success : Bool
  fulfilled : Bool
  store : Store
  deriving DecidableEq, Repr

/-- First row of `l` whose key is `k` (a SQLAlchemy `filter(...).first()`). -/
def findBy {α β : Type} [DecidableEq β] (key : α → β) (k : β) (l : List α) :
    Option α :=
  l.find? (fun x => decide (key x = k))

/-- Replace every row of `l` whose key is `k` by `a` (an ORM write-back of a
mutated row; key columns carry a unique index, so at most one row matches). -/
def updateBy {α β : Type} [DecidableEq β] (key : α → β) (k : β) (a : α)
    (l : List α) : List α :=
  l.map (fun x => if key x = k then a else x)

/-- Look up a payment by its external `payment_id`. -/
def Store.findPayment (s : Store) (pid : String) : Option Payment :=
  findBy Payment.payment_id pid s.payments

/-- Look up an order by primary key. -/
def Store.findOrder (s : Store) (oid : ℤ) : Option Order :=
  findBy Order.id oid s.orders

/-- Look up a user by primary key. -/
def Store.findUser (s : Store) (uid : ℤ) : Option User :=
  findBy User.id uid s.users

/-- Write back a mutated payment row. -/
def Store.updatePayment (s : Store) (pid : String) (p : Payment) : Store :=
  { s with payments := updateBy Payment.payment_id pid p s.payments }

/-- Write back a mutated order row. -/
def Store.updateOrder (s : Store) (oid : ℤ) (o : Order) : Store :=
  { s with orders := updateBy Order.id oid o s.orders }

/-- Write back a mutated user row. -/
def Store.updateUser (s : Store) (uid : ℤ) (u : User) : Store :=
  { s with users := updateBy User.id uid u s.users }

/-- Python `str.lower()` (ASCII case folding suffices for the status
strings compared here), written so that it reduces by kernel computation. -/
def pyLower (s : String) : String :=
  String.mk (s.data.map Char.toLower)

/-- `NOWPaymentsService.map_payment_status`: map a gateway status string to
the internal status; anything unrecognized maps to `PENDING`. -/
def map_payment_status (nowpayments_status : String) : PaymentStatus :=
  match pyLower nowpayments_status with
  | "waiting" => PaymentStatus.WAITING
  | "confirming" => PaymentStatus.CONFIRMING
  | "confirmed" => PaymentStatus.CONFIRMED
  | "sending" => PaymentStatus.SENDING
  | "partially_paid" => PaymentStatus.PARTIALLY_PAID
  | "finished" => PaymentStatus.FINISHED
  | "failed" => PaymentStatus.FAILED
  | "refunded" => PaymentStatus.REFUNDED
  | "expired" => PaymentStatus.EXPIRED
  | _ => PaymentStatus.PENDING

/-- `NOWPaymentsService._award_loyalty_points`: award `int(order.total_amount)`
points (1 point per whole currency unit); skip when the award is ≤ 0;
otherwise increment the owning user's balance and cumulative counters and
append one `LoyaltyTransaction` row referencing the order.  When the owning
user row is absent the attribute access raises, the handler's own
`except` clause swallows the error and nothing is committed. -/
def award_loyalty_points (s : Store) (order : Order) : Store :=
  let points_earned : ℤ := pyInt order.total_amount
  if points_earned ≤ 0 then s
  else
    match s.findUser order.user_id with
    | none => s
    | some u =>
      let u' : User :=
        { u with
          loyalty_points := u.loyalty_points + points_earned
          total_spent := u.total_spent + order.total_amount
          total_orders := u.total_orders + 1 }
      let tx : LoyaltyTransaction :=
        { user_id := order.user_id
          order_id := order.id
          points := points_earned
          kind := "earned"
          description := "Points earned from order " ++ order.order_number
          reference := "order_" ++ toString order.id }
      let s' := s.updateUser order.user_id u'
      { s' with loyalty_transactions := s'.loyalty_transactions ++ [tx] }

/-- Body of the per-item loop of `NOWPaymentsService._process_digital_delivery`:
a digital item gets `download_expires_at = now + (download_expiry_days or 30)`
days and a `download_links` list holding one tokenised link (limit
`download_limit or 5`) when the product's `digital_file_url` is truthy
(`if item.product.digital_file_url:` — `None` and the empty string are
falsy), an empty list otherwise; a physical item is left untouched.
`webhookUrl` stands for `settings.webhook_url`; `tok` is the fresh
`uuid4().hex` value. -/
def deliverItem (webhookUrl : String) (now : ℤ) (tok : String)
    (item : OrderItem) : OrderItem :=
  if item.product.product_type = ProductType.DIGITAL then
    let expiry : ℤ := now + pyOrInt item.product.download_expiry_days 30 * 86400
    let links : List DownloadLink :=
      if falsyStr item.product.digital_file_url then []
      else
        [{ url := webhookUrl ++ "/download/" ++ tok
           token := tok
           expires_at := expiry
           download_limit := pyOrInt item.product.download_limit 5 }]
    { item with download_links := some links, download_expires_at := some expiry }
  else item

/-- The item list produced by `_process_digital_delivery` starting at token
index `i`: each line item is rewritten by `deliverItem` with the next token
of the supply. -/
def deliverItemsFrom (webhookUrl : String) (now : ℤ) (tokens : Nat → String) :
    Nat → List OrderItem → List OrderItem
  | _, [] => []
  | i, it :: rest =>
    deliverItem webhookUrl now (tokens i) it ::
      deliverItemsFrom webhookUrl now tokens (i + 1) rest

/-- The item list produced by `_process_digital_delivery`, threading the
token supply by item position. -/
def deliverItems (webhookUrl : String) (now : ℤ) (tokens : Nat → String)
    (items : List OrderItem) : List OrderItem :=
  deliverItemsFrom webhookUrl now tokens 0 items

/-- `NOWPaymentsService._process_digital_delivery` on the order's row:
rewrite each line item through `deliverItem` and persist. -/
def process_digital_delivery (webhookUrl : String) (now : ℤ)
    (tokens : Nat → String) (s : Store) (order : Order) : Store :=
  s.updateOrder order.id
    { order with items := deliverItems webhookUrl now tokens order.items }

/-- The field updates `process_ipn_callback` applies to the payment row
before the status branch (`payment.payment_status = new_status` through
`payment.updated_at = datetime.now`). -/
def mkUpdatedPayment (payment : Payment) (new_status : PaymentStatus)
    (ipn : IpnData) (now : ℤ) : Payment :=
  { payment with
    payment_status := new_status
    actually_paid := ipn.actually_paid.getD 0
    actually_paid_currency := ipn.actually_paid_currency
    txn_id := ipn.outcome_txid
    network := ipn.outcome_network
    updated_at := now }

/-- The part of `NOWPaymentsService.process_ipn_callback` that runs after the
payment row has been read: compute `old_status` / `new_status` from the read
snapshot, write the updated payment row, and when
`new_status == FINISHED and old_status != FINISHED` mark the order `PAID`,
award loyalty points and run digital delivery.  A missing order row makes
`payment.order.payment_status = ...` raise, the outer `except` returns
`False` and the session is closed without commit, discarding every write. -/
def callbackWrite (webhookUrl : String) (now : ℤ) (tokens : Nat → String)
    (ipn : IpnData) (ps : String) (payment : Payment) (s : Store) :
    CallbackResult :=
  let old_status := payment.payment_status
  let new_status := map_payment_status ps
  let payment' := mkUpdatedPayment payment new_status ipn now
  let s1 := s.updatePayment payment.payment_id payment'
  if new_status = PaymentStatus.FINISHED ∧ old_status ≠ PaymentStatus.FINISHED
  then
    match s1.findOrder payment.order_id with
    | none => ⟨false, false, s⟩
    | some order =>
      let order' :=
        { order with
          payment_status := PaymentStatus.FINISHED
          status := OrderStatus.PAID
          updated_at := now }
      let s2 := s1.updateOrder payment.order_id order'
      let s3 := award_loyalty_points s2 order'
      let s4 :=
        if order'.items ≠ [] then
          process_digital_delivery webhookUrl now tokens s3 order'
        else s3
      ⟨true, true, s4⟩
  else ⟨true, false, s1⟩

/-- `NOWPaymentsService.process_ipn_callback`: reject when `payment_id` or
`payment_status` is absent or falsy, look the payment up by external id
(not-found rejects with no state change), then apply `callbackWrite`. -/
def process_ipn_callback (webhookUrl : String) (now : ℤ)
    (tokens : Nat → String) (ipn : IpnData) (s : Store) : CallbackResult :=
  match ipn.payment_id, ipn.payment_status with
  | some pid, some ps =>
    if pid = "" ∨ ps = "" then ⟨false, false, s⟩
    else
      match s.findPayment pid with
      | none => ⟨false, false, s⟩
      | some payment => callbackWrite webhookUrl now tokens ipn ps payment s
  | _, _ => ⟨false, false, s⟩

/-- `NOWPaymentsService.verify_ipn_signature`: recompute the keyed digest of
the raw body under the shared IPN secret and compare (`hmac.compare_digest`
is equality on equal-length hex strings).  The digest function itself is the
explicit argument `hmacHex`. -/
def verify_ipn_signature (hmacHex : String → String → String)
    (ipn_secret : String) (payload : String) (signature : String) : Bool :=
  hmacHex ipn_secret payload = signature

/-- An inbound webhook request: the `x-nowpayments-sig` header (if present)
and the raw body. -/
structure HttpRequest where
  sig_header : Option String
  body : String
  deriving DecidableEq, Repr

/-- The JSON value returned by the `payment_ipn` endpoint.  `okJson` is
`{"status": "ok"}`; `errorTuple400` is the Python tuple
`({"status": "error"}, 400)`, which FastAPI serializes as a two-element JSON
array; `exceptionTuple500` is the tuple
`({"status": "error", "message": ...}, 500)` produced by the
`except Exception` clause. -/
inductive IpnRespBody
  | okJson
  | errorTuple400
  | exceptionTuple500
  deriving DecidableEq, Repr

/-- An HTTP response as emitted by the framework. -/
structure HttpResponse where
  statusCode : Nat
  body : IpnRespBody
  deriving DecidableEq, Repr

/-- Result of one `payment_ipn` request: the HTTP response, whether
`process_ipn_callback` was invoked (instrumentation), and the store after the
request. -/
structure IpnEndpointResult where
  response : HttpResponse
  invokedProcess : Bool
  store : Store
  deriving DecidableEq, Repr

/-- The `payment_ipn` endpoint of `web/app.py`, under FastAPI semantics:
a value returned from the endpoint is JSON-encoded and sent with the route's
default status code 200 (a tuple return is encoded as a JSON array, not
unpacked into a body/status pair), and `fastapi.HTTPException` is a subclass
of `Exception`, so the `raise HTTPException(400)` on signature failure is
caught by the endpoint's own `except Exception` clause and converted into the
returned tuple `({"status": "error", "message": ...}, 500)`.  Consequently
every path of this endpoint returns a value and every response carries
status code 200.  `parseIpn` models `json.loads` plus dict field access
(`none` = the body is not a JSON object). -/
def payment_ipn (hmacHex : String → String → String)
    (parseIpn : String → Option IpnData) (ipn_secret webhookUrl : String)
    (now : ℤ) (tokens : Nat → String) (req : HttpRequest) (s : Store) :
    IpnEndpointResult :=
  let sigOk : Bool :=
    match req.sig_header with
    | none => false
    | some sig =>
      if sig = "" then false
      else verify_ipn_signature hmacHex ipn_secret req.body sig
  if sigOk then
    match parseIpn req.body with
    | none => ⟨⟨200, IpnRespBody.exceptionTuple500⟩, false, s⟩
    | some data =>
      let r := process_ipn_callback webhookUrl now tokens data s
      if r.success then ⟨⟨200, IpnRespBody.okJson⟩, true, r.store⟩
      else ⟨⟨200, IpnRespBody.errorTuple400⟩, true, r.store⟩
  else ⟨⟨200, IpnRespBody.exceptionTuple500⟩, false, s⟩

/-- Progress of one caller running `process_ipn_callback` against the shared
store, split at its two store accesses: the payment-row read
(`query(Payment).filter(...).first()`) and the write-back/commit.  `SessionLocal`
sessions give each caller its own snapshot of the row between these points;
the code takes no row lock and performs no compare-and-set. -/
inductive ThreadPh
  | beforeRead
  | afterRead (snap : Option Payment)
  | done (ok : Bool) (sawOldNotFinished : Bool)
  deriving DecidableEq, Repr

/-- Two concurrent webhook deliveries sharing one store. -/
structure ConcSystem where
  store : Store
  thread0 : ThreadPh
  thread1 : ThreadPh
  deriving DecidableEq, Repr

/-- Phase of caller `i`. -/
def ConcSystem.phase (sys : ConcSystem) (i : Bool) : ThreadPh :=
  if i then sys.thread1 else sys.thread0

/-- Replace the phase of caller `i`. -/
def ConcSystem.setPhase (sys : ConcSystem) (i : Bool) (ph : ThreadPh) :
    ConcSystem :=
  if i then { sys with thread1 := ph } else { sys with thread0 := ph }

/-- Run the next atomic step of caller `i`, both callers delivering the same
notification `ipn`: field validation and the payment read first, then the
whole decide-and-write phase (`callbackWrite`) against the current shared
store, using the snapshot taken at read time. -/
def concStep (webhookUrl : String) (now : ℤ) (tokens : Nat → String)
    (ipn : IpnData) (sys : ConcSystem) (i : Bool) : ConcSystem :=
  match sys.phase i with
  | ThreadPh.beforeRead =>
    match ipn.payment_id, ipn.payment_status with
    | some pid, some ps =>
      if pid = "" ∨ ps = "" then
        sys.setPhase i (ThreadPh.done false false)
      else
        sys.setPhase i (ThreadPh.afterRead (sys.store.findPayment pid))
    | _, _ => sys.setPhase i (ThreadPh.done false false)
  | ThreadPh.afterRead none => sys.setPhase i (ThreadPh.done false false)
  | ThreadPh.afterRead (some snap) =>
    let ps := (ipn.payment_status).getD ("")
    let r := callbackWrite webhookUrl now tokens ipn ps snap sys.store
    { store := r.store
      thread0 :=
        if i then sys.thread0
        else ThreadPh.done r.success
          (decide (snap.payment_status ≠ PaymentStatus.FINISHED))
      thread1 :=
        if i then ThreadPh.done r.success
          (decide (snap.payment_status ≠ PaymentStatus.FINISHED))
        else sys.thread1 }
  | ThreadPh.done _ _ => sys

/-- Run a schedule (list of caller choices) from a system state. -/
def runSched (webhookUrl : String) (now : ℤ) (tokens : Nat → String)
    (ipn : IpnData) (sched : List Bool) (sys : ConcSystem) : ConcSystem :=
  sched.foldl (concStep webhookUrl now tokens ipn) sys

section Lemmas

variable {α β : Type} [DecidableEq β]

/-- A row found by key satisfies the key equation. -/
theorem findBy_key_eq {key : α → β} {k : β} {l : List α} {a : α}
    (h : findBy key k l = some a) : key a = k := by
  have := List.find?_some h
  simpa using this

/-- After writing back a row carrying key `k`, looking up `k` finds exactly
the written row (provided some row with key `k` existed). -/
theorem findBy_updateBy_self {key : α → β} {k : β} {l : List α} {a a' : α}
    (h : findBy key k l = some a) (hk : key a' = k) :
    findBy key k (updateBy key k a' l) = some a' := by
  induction l with
  | nil => simp [findBy] at h
  | cons x xs ih =>
    by_cases hx : key x = k
    · simp [findBy, updateBy, List.find?, hx, hk]
    · simp only [findBy, updateBy, List.map_cons, if_neg hx] at *
      rw [List.find?_cons_of_neg _ (by simpa using hx)] at h ⊢
      exact ih h

/-- Writing the same key twice keeps only the second write. -/
theorem updateBy_updateBy {key : α → β} {k : β} {l : List α} {a₁ a₂ : α}
    (hk : key a₁ = k) :
    updateBy key k a₂ (updateBy key k a₁ l) = updateBy key k a₂ l := by
  induction l with
  | nil => rfl
  | cons x xs ih =>
    by_cases hx : key x = k
    · simp [updateBy, hx, hk] at *
      exact ih
    · simp [updateBy, hx] at *
      exact ih

/-- A lookup that finds nothing means the write-back touches no row. -/
theorem updateBy_of_findBy_none {key : α → β} {k : β} {l : List α} {a : α}
    (h : findBy key k l = none) : updateBy key k a l = l := by
  induction l with
  | nil => rfl
  | cons x xs ih =>
    by_cases hx : key x = k
    · rw [findBy, List.find?_cons_of_pos _ (by simpa using hx)] at h
      cases h
    · rw [findBy, List.find?_cons_of_neg _ (by simpa using hx)] at h
      have h' : findBy key k xs = none := h
      simp only [updateBy, List.map_cons, if_neg hx]
      exact congrArg (List.cons x) (ih h')

/-- Re-applying the incidental-field update of `process_ipn_callback` with
the same notification and timestamp changes nothing. -/
theorem mkUpdatedPayment_idem (p : Payment) (st : PaymentStatus)
    (ipn : IpnData) (now : ℤ) :
    mkUpdatedPayment (mkUpdatedPayment p st ipn now) st ipn now =
      mkUpdatedPayment p st ipn now := by
  cases p
  rfl

/-- The updated payment row keeps its external identifier. -/
theorem mkUpdatedPayment_payment_id (p : Payment) (st : PaymentStatus)
    (ipn : IpnData) (now : ℤ) :
    (mkUpdatedPayment p st ipn now).payment_id = p.payment_id := rfl

/-- Truncation toward zero agrees with the floor on nonnegative rationals. -/
theorem pyInt_eq_floor {q : ℚ} (h : 0 ≤ q) : pyInt q = ⌊q⌋ := if_pos h

/-- Truncation toward zero is nonpositive exactly when the floor is. -/
theorem pyInt_nonpos_iff_floor_nonpos (q : ℚ) : pyInt q ≤ 0 ↔ ⌊q⌋ ≤ 0 := by
  unfold pyInt
  by_cases h : 0 ≤ q
  · simp [h]
  · have hq : q ≤ 0 := le_of_not_le h
    simp only [if_neg h]
    constructor
    · intro _
      exact Int.floor_nonpos hq
    · intro _
      exact Int.ceil_le.mpr (by exact_mod_cast hq)

end Lemmas

section StoreLemmas

/-- Writing a payment row leaves the orders table unchanged. -/
@[simp] theorem updatePayment_orders (s : Store) (pid : String) (p : Payment) :
    (s.updatePayment pid p).orders = s.orders := rfl

/-- Writing a payment row leaves the users table unchanged. -/
@[simp] theorem updatePayment_users (s : Store) (pid : String) (p : Payment) :
    (s.updatePayment pid p).users = s.users := rfl

/-- Writing a payment row leaves the loyalty ledger unchanged. -/
@[simp] theorem updatePayment_loyalty (s : Store) (pid : String) (p : Payment) :
    (s.updatePayment pid p).loyalty_transactions = s.loyalty_transactions := rfl

/-- Writing an order row leaves the payments table unchanged. -/
@[simp] theorem updateOrder_payments (s : Store) (oid : ℤ) (o : Order) :
    (s.updateOrder oid o).payments = s.payments := rfl

/-- Writing a user row leaves the payments table unchanged. -/
@[simp] theorem updateUser_payments (s : Store) (uid : ℤ) (u : User) :
    (s.updateUser uid u).payments = s.payments := rfl

/-- Writing a user row leaves the orders table unchanged. -/
@[simp] theorem updateUser_orders (s : Store) (uid : ℤ) (u : User) :
    (s.updateUser uid u).orders = s.orders := rfl

/-- The loyalty handler never touches the payments table. -/
@[simp] theorem award_payments (s : Store) (o : Order) :
    (award_loyalty_points s o).payments = s.payments := by
  by_cases h : pyInt o.total_amount ≤ 0
  · simp [award_loyalty_points, h]
  · cases hu : s.findUser o.user_id <;>
      simp [award_loyalty_points, h, hu, Store.updateUser]

/-- The loyalty handler never touches the orders table. -/
@[simp] theorem award_orders (s : Store) (o : Order) :
    (award_loyalty_points s o).orders = s.orders := by
  by_cases h : pyInt o.total_amount ≤ 0
  · simp [award_loyalty_points, h]
  · cases hu : s.findUser o.user_id <;>
      simp [award_loyalty_points, h, hu, Store.updateUser]

/-- Digital delivery never touches the payments table. -/
@[simp] theorem delivery_payments (w : String) (now : ℤ) (t : Nat → String)
    (s : Store) (o : Order) :
    (process_digital_delivery w now t s o).payments = s.payments := rfl

/-- Digital delivery never touches the users table. -/
@[simp] theorem delivery_users (w : String) (now : ℤ) (t : Nat → String)
    (s : Store) (o : Order) :
    (process_digital_delivery w now t s o).users = s.users := rfl

/-- Digital delivery never touches the loyalty ledger. -/
@[simp] theorem delivery_loyalty (w : String) (now : ℤ) (t : Nat → String)
    (s : Store) (o : Order) :
    (process_digital_delivery w now t s o).loyalty_transactions =
      s.loyalty_transactions := rfl

/-- With both notification fields present and non-falsy, and the payment row
found, `process_ipn_callback` is exactly its decide-and-write phase. -/
theorem process_eq_callbackWrite (w : String) (now : ℤ) (t : Nat → String)
    (ipn : IpnData) (s : Store) (pid ps : String) (payment : Payment)
    (hpid : ipn.payment_id = some pid) (hpid' : pid ≠ "")
    (hps : ipn.payment_status = some ps) (hps' : ps ≠ "")
    (hpay : s.findPayment pid = some payment) :
    process_ipn_callback w now t ipn s = callbackWrite w now t ipn ps payment s := by
  unfold process_ipn_callback
  rw [hpid, hps]
  simp [hpid', hps', hpay]

end StoreLemmas

attribute [ext] Store Payment

section Fixtures

/-- Concrete user fixture (the spec's §8 scenario: balance initially 0). -/
def fxUser : User := { id := 7, loyalty_points := 0, total_spent := 0, total_orders := 0 }

/-- Concrete order fixture: a 50.00-unit order with no line items. -/
def fxOrder : Order :=
  { id := 1, order_number := "ORD-20240101-ABC123", user_id := 7,
    status := OrderStatus.PENDING, payment_status := PaymentStatus.PENDING,
    total_amount := 50, updated_at := 0, items := [] }

/-- Concrete payment fixture `np_123`, currently `CONFIRMING`. -/
def fxPayment : Payment :=
  { payment_id := "np_123", order_id := 1,
    payment_status := PaymentStatus.CONFIRMING, actually_paid := 0,
    actually_paid_currency := none, txn_id := none, network := none,
    updated_at := 0 }

/-- Store fixture holding `fxPayment`, `fxOrder`, `fxUser`. -/
def fxStore : Store :=
  { payments := [fxPayment], orders := [fxOrder], users := [fxUser],
    loyalty_transactions := [] }

/-- The `np_123` payment already in `FINISHED` state. -/
def fxFinPayment : Payment :=
  { fxPayment with payment_status := PaymentStatus.FINISHED }

/-- Store fixture in which `np_123` is already `FINISHED`. -/
def fxFinStore : Store := { fxStore with payments := [fxFinPayment] }

/-- A deterministic stand-in for the `uuid4().hex` token supply. -/
def fxTokens : Nat → String := fun n => "tok" ++ toString n

/-- A stand-in for `settings.webhook_url`. -/
def fxUrl : String := "https://shop.example"

/-- The spec's §8 `finished` notification for `np_123`. -/
def fxFinIpn : IpnData :=
  { payment_id := some ("np_123"), payment_status := some ("finished"),
    actually_paid := some (21 / 10000), actually_paid_currency := some ("btc"),
    outcome_txid := some ("0xabc"), outcome_network := some ("btc") }

/-- A `waiting` notification for `np_123`. -/
def fxWaitIpn : IpnData := { fxFinIpn with payment_status := some ("waiting") }

/-- A stale `confirming` notification for `np_123`. -/
def fxConfIpn : IpnData := { fxFinIpn with payment_status := some ("confirming") }

/-- A validly formed notification for an unknown payment id. -/
def fxUnknownIpn : IpnData := { fxFinIpn with payment_id := some ("np_unknown") }

end Fixtures

/-- Claim C8: a validly signed, well-formed notification whose `payment_id`
matches no stored payment makes `process_ipn_callback` return failure with
the store — every payment, order and user row — left unchanged. -/
theorem ipn_unknown_payment_rejected (w : String) (now : ℤ)
    (t : Nat → String) (ipn : IpnData) (s : Store) (pid ps : String)
    (hpid : ipn.payment_id = some pid) (hpid' : pid ≠ "")
    (hps : ipn.payment_status = some ps) (hps' : ps ≠ "")
    (hnone : s.findPayment pid = none) :
    process_ipn_callback w now t ipn s =
      { success := false, fulfilled := false, store := s } := by
  unfold process_ipn_callback
  rw [hpid, hps]
  simp [hpid', hps', hnone]

/-- Witness for C8: the spec's `np_unknown` scenario on the concrete store. -/
theorem ipn_unknown_payment_rejected_witness :
    fxUnknownIpn.payment_id = some ("np_unknown") ∧
    ("np_unknown" : String) ≠ "" ∧
    fxUnknownIpn.payment_status = some ("finished") ∧
    ("finished" : String) ≠ "" ∧
    fxStore.findPayment ("np_unknown") = none ∧
    process_ipn_callback fxUrl 100 fxTokens fxUnknownIpn fxStore =
      { success := false, fulfilled := false, store := fxStore } :=
  ⟨rfl, by decide, rfl, by decide, by decide,
    ipn_unknown_payment_rejected fxUrl 100 fxTokens fxUnknownIpn fxStore
      ("np_unknown") ("finished") rfl (by decide) rfl (by decide) (by decide)⟩

/-- Claim C10: a non-empty `payment_status` string outside the nine
recognized gateway statuses (compared case-insensitively) maps to `PENDING`,
and a validly processed notification carrying such a string succeeds and
overwrites the stored payment status with `PENDING` — whatever the stored
status was, terminal included. -/
theorem unknown_status_maps_to_pending (w : String) (now : ℤ)
    (t : Nat → String) (ipn : IpnData) (s : Store) (pid ps : String)
    (payment : Payment)
    (hpid : ipn.payment_id = some pid) (hpid' : pid ≠ "")
    (hps : ipn.payment_status = some ps) (hps' : ps ≠ "")
    (hunk : pyLower ps ∉
      (["waiting", "confirming", "confirmed", "sending", "partially_paid",
        "finished", "failed", "refunded", "expired"] : List String))
    (hpay : s.findPayment pid = some payment) :
    map_payment_status ps = PaymentStatus.PENDING ∧
    (process_ipn_callback w now t ipn s).success = true ∧
    ((process_ipn_callback w now t ipn s).store.findPayment pid).map
      Payment.payment_status = some PaymentStatus.PENDING := by
  have hmap : map_payment_status ps = PaymentStatus.PENDING := by
    unfold map_payment_status
    split
    all_goals first
      | rfl
      | (rename_i heq; exact absurd (by rw [heq]; decide) hunk)
  have hkey : payment.payment_id = pid := findBy_key_eq hpay
  have hproc : process_ipn_callback w now t ipn s =
      { success := true, fulfilled := false,
        store := s.updatePayment pid
          (mkUpdatedPayment payment PaymentStatus.PENDING ipn now) } := by
    rw [process_eq_callbackWrite w now t ipn s pid ps payment hpid hpid' hps
      hps' hpay]
    unfold callbackWrite
    rw [hmap, hkey]
    simp
  refine ⟨hmap, by rw [hproc], ?_⟩
  rw [hproc]
  have hfind : findBy Payment.payment_id pid
      (updateBy Payment.payment_id pid
        (mkUpdatedPayment payment PaymentStatus.PENDING ipn now)
        s.payments) =
      some (mkUpdatedPayment payment PaymentStatus.PENDING ipn now) :=
    findBy_updateBy_self hpay (by rw [mkUpdatedPayment_payment_id, hkey])
  unfold Store.findPayment Store.updatePayment
  rw [hfind]
  simp [mkUpdatedPayment]

/-- Witness for C10: the unrecognized status string `bogus_status` delivered
for a payment whose stored status is terminal (`FINISHED`). -/
theorem unknown_status_maps_to_pending_witness :
    pyLower ("bogus_status") ∉
      (["waiting", "confirming", "confirmed", "sending", "partially_paid",
        "finished", "failed", "refunded", "expired"] : List String) ∧
    fxFinStore.findPayment ("np_123") = some fxFinPayment ∧
    map_payment_status ("bogus_status") = PaymentStatus.PENDING ∧
    (process_ipn_callback fxUrl 100 fxTokens
        { fxFinIpn with payment_status := some ("bogus_status") }
        fxFinStore).success = true ∧
    ((process_ipn_callback fxUrl 100 fxTokens
        { fxFinIpn with payment_status := some ("bogus_status") }
        fxFinStore).store.findPayment ("np_123")).map Payment.payment_status =
      some PaymentStatus.PENDING := by
  have h := unknown_status_maps_to_pending fxUrl 100 fxTokens
    { fxFinIpn with payment_status := some ("bogus_status") } fxFinStore
    ("np_123") ("bogus_status") fxFinPayment rfl (by decide) rfl (by decide)
    (by decide) (by decide)
  exact ⟨by decide, by decide, h.1, h.2.1, h.2.2⟩

/-- Claim C4: when the signature header is absent or differs from the keyed
digest of the raw body under the shared secret, the webhook handler rejects
the request on its signature-check path: `process_ipn_callback` is never
invoked and the store — every payment, order and user row — is unchanged.
The response is the error body produced by the `except Exception` clause. -/
theorem ipn_bad_signature_rejected (hmacHex : String → String → String)
    (parseIpn : String → Option IpnData) (secret w : String) (now : ℤ)
    (t : Nat → String) (req : HttpRequest) (s : Store)
    (hbad : ∀ g, req.sig_header = some g → g ≠ hmacHex secret req.body) :
    payment_ipn hmacHex parseIpn secret w now t req s =
      { response := { statusCode := 200, body := IpnRespBody.exceptionTuple500 }
        invokedProcess := false
        store := s } := by
  unfold payment_ipn
  cases hsig : req.sig_header with
  | none => simp
  | some g =>
    by_cases hg : g = ""
    · simp [hg]
    · have hne : ¬ hmacHex secret req.body = g :=
        fun h => hbad g hsig h.symm
      simp [hg, verify_ipn_signature, hne]

/-- Witness for C4: a request carrying a wrong signature over the concrete
digest function. -/
theorem ipn_bad_signature_rejected_witness :
    (("wrongsig" : String) ≠ (fun k b => k ++ "|" ++ b) ("sec") ("rawbody")) ∧
    payment_ipn (fun k b => k ++ "|" ++ b) (fun _ => some fxFinIpn) ("sec")
        fxUrl 100 fxTokens
        { sig_header := some ("wrongsig"), body := "rawbody" } fxStore =
      { response := { statusCode := 200, body := IpnRespBody.exceptionTuple500 }
        invokedProcess := false
        store := fxStore } := by
  refine ⟨by decide, ?_⟩
  exact ipn_bad_signature_rejected (fun k b => k ++ "|" ++ b)
    (fun _ => some fxFinIpn) ("sec") fxUrl 100 fxTokens
    { sig_header := some ("wrongsig"), body := "rawbody" } fxStore
    (by intro g hg heq
        injection hg with hg'
        rw [← hg'] at heq
        exact absurd heq (by decide))

/-- Claim C6: on an order whose owning user exists, the loyalty handler
awards exactly the floor of the order total (1 point per whole currency
unit): when the floor is ≤ 0 nothing changes at all; otherwise the user's
balance grows by the floor, cumulative spend grows by the order total,
the order counter grows by one, and exactly one `LoyaltyTransaction` row
carrying those points and the reference `order_<id>` is appended.  (Python's
`int()` truncates toward zero, which agrees with the floor whenever an
award is actually made, and the skip thresholds coincide.) -/
theorem award_loyalty_points_spec (s : Store) (order : Order) (u : User)
    (hu : s.findUser order.user_id = some u) :
    (⌊order.total_amount⌋ ≤ 0 → award_loyalty_points s order = s) ∧
    (0 < ⌊order.total_amount⌋ →
      award_loyalty_points s order =
        { payments := s.payments
          orders := s.orders
          users := updateBy User.id order.user_id
            { u with
              loyalty_points := u.loyalty_points + ⌊order.total_amount⌋
              total_spent := u.total_spent + order.total_amount
              total_orders := u.total_orders + 1 } s.users
          loyalty_transactions := s.loyalty_transactions ++
            [{ user_id := order.user_id
               order_id := order.id
               points := ⌊order.total_amount⌋
               kind := "earned"
               description := "Points earned from order " ++ order.order_number
               reference := "order_" ++ toString order.id }] }) := by
  constructor
  · intro hle
    have hpy : pyInt order.total_amount ≤ 0 :=
      (pyInt_nonpos_iff_floor_nonpos _).mpr hle
    simp [award_loyalty_points, hpy]
  · intro hpos
    have hnn : (0 : ℚ) ≤ order.total_amount := by
      by_contra hneg
      push_neg at hneg
      have := Int.floor_nonpos (le_of_lt hneg)
      omega
    have hpy : pyInt order.total_amount = ⌊order.total_amount⌋ :=
      pyInt_eq_floor hnn
    have hgt : ¬ ⌊order.total_amount⌋ ≤ 0 := by omega
    simp [award_loyalty_points, hpy, hgt, hu, Store.updateUser]

/-- Witness for C6: the spec's §8 scenario — a 50.00-unit order awards 50
points and appends one `+50` transaction referencing the order. -/
theorem award_loyalty_points_spec_witness :
    fxStore.findUser 7 = some fxUser ∧
    (0 : ℤ) < ⌊(50 : ℚ)⌋ ∧
    (award_loyalty_points fxStore fxOrder).loyalty_transactions =
      [{ user_id := 7, order_id := 1, points := 50, kind := "earned",
         description := "Points earned from order ORD-20240101-ABC123",
         reference := "order_1" }] ∧
    ((award_loyalty_points fxStore fxOrder).findUser 7).map
      User.loyalty_points = some 50 := by
  have h := (award_loyalty_points_spec fxStore fxOrder fxUser (by decide)).2
    (by decide)
  refine ⟨by decide, by decide, ?_, ?_⟩
  · rw [h]; decide
  · rw [h]; decide

/-- Counterexample to claim C3 as stated: with `np_123` stored as `FINISHED`
(terminal), delivering a stale `confirming` notification overwrites the
stored status with `CONFIRMING`; it does not stay `FINISHED`. -/
theorem terminal_overwrite_counterexample :
    ((process_ipn_callback fxUrl 200 fxTokens fxConfIpn
        fxFinStore).store.findPayment ("np_123")).map Payment.payment_status =
      some PaymentStatus.CONFIRMING ∧
    ¬ (((process_ipn_callback fxUrl 200 fxTokens fxConfIpn
        fxFinStore).store.findPayment ("np_123")).map Payment.payment_status =
      some PaymentStatus.FINISHED) := by decide

/-- Claim C3 (amended): once a payment is stored as `FINISHED`, no further
notification re-triggers fulfillment — the orders, users and loyalty tables
stay untouched and the callback reports a no-fulfillment success — but the
stored status is NOT protected: it is overwritten with the notification's
mapped status (the code has no terminal-status guard; stale `CONFIRMING`
therefore leaves the payment `CONFIRMING`). -/
theorem finished_overwrite_no_refulfill (w : String) (now : ℤ)
    (t : Nat → String) (ipn : IpnData) (s : Store) (pid ps : String)
    (payment : Payment)
    (hpid : ipn.payment_id = some pid) (hpid' : pid ≠ "")
    (hps : ipn.payment_status = some ps) (hps' : ps ≠ "")
    (hpay : s.findPayment pid = some payment)
    (hfin : payment.payment_status = PaymentStatus.FINISHED) :
    (process_ipn_callback w now t ipn s).success = true ∧
    (process_ipn_callback w now t ipn s).fulfilled = false ∧
    ((process_ipn_callback w now t ipn s).store.findPayment pid).map
      Payment.payment_status = some (map_payment_status ps) ∧
    (process_ipn_callback w now t ipn s).store.orders = s.orders ∧
    (process_ipn_callback w now t ipn s).store.users = s.users ∧
    (process_ipn_callback w now t ipn s).store.loyalty_transactions =
      s.loyalty_transactions := by
  have hkey : payment.payment_id = pid := findBy_key_eq hpay
  have hproc : process_ipn_callback w now t ipn s =
      { success := true, fulfilled := false,
        store := s.updatePayment pid
          (mkUpdatedPayment payment (map_payment_status ps) ipn now) } := by
    rw [process_eq_callbackWrite w now t ipn s pid ps payment hpid hpid' hps
      hps' hpay]
    unfold callbackWrite
    rw [hfin, hkey]
    simp
  rw [hproc]
  have hfind : findBy Payment.payment_id pid
      (updateBy Payment.payment_id pid
        (mkUpdatedPayment payment (map_payment_status ps) ipn now)
        s.payments) =
      some (mkUpdatedPayment payment (map_payment_status ps) ipn now) :=
    findBy_updateBy_self hpay (by rw [mkUpdatedPayment_payment_id, hkey])
  refine ⟨rfl, rfl, ?_, rfl, rfl, rfl⟩
  unfold Store.findPayment Store.updatePayment
  rw [hfind]
  simp [mkUpdatedPayment]

/-- Witness for the amended C3: the `FINISHED` payment hit by the stale
`confirming` notification. -/
theorem finished_overwrite_no_refulfill_witness :
    fxFinStore.findPayment ("np_123") = some fxFinPayment ∧
    fxFinPayment.payment_status = PaymentStatus.FINISHED ∧
    (process_ipn_callback fxUrl 200 fxTokens fxConfIpn fxFinStore).fulfilled
      = false ∧
    (process_ipn_callback fxUrl 200 fxTokens fxConfIpn
      fxFinStore).store.loyalty_transactions =
        fxFinStore.loyalty_transactions := by
  have h := finished_overwrite_no_refulfill fxUrl 200 fxTokens fxConfIpn
    fxFinStore ("np_123") ("confirming") fxFinPayment rfl (by decide) rfl
    (by decide) (by decide) (by decide)
  exact ⟨by decide, by decide, h.2.1, h.2.2.2.2.2⟩

/-- The store produced by the `FINISHED`-transition branch of
`process_ipn_callback`: payment row rewritten, order marked
`PAID`/`FINISHED`, loyalty awarded, digital delivery run when the order has
line items.  (Proof-structuring abbreviation for the branch body of
`callbackWrite`.) -/
def finishedBranchStore (w : String) (now : ℤ) (t : Nat → String)
    (ipn : IpnData) (ps : String) (payment : Payment) (order : Order)
    (s : Store) : Store :=
  let payment' := mkUpdatedPayment payment (map_payment_status ps) ipn now
  let s1 := s.updatePayment payment.payment_id payment'
  let order' : Order :=
    { order with
      payment_status := PaymentStatus.FINISHED
      status := OrderStatus.PAID
      updated_at := now }
  let s2 := s1.updateOrder payment.order_id order'
  let s3 := award_loyalty_points s2 order'
  if order'.items ≠ [] then process_digital_delivery w now t s3 order' else s3

/-- On a transition into `FINISHED` from a non-`FINISHED` stored status,
the decide-and-write phase succeeds, triggers fulfillment, and produces the
branch store. -/
theorem callbackWrite_pos (w : String) (now : ℤ) (t : Nat → String)
    (ipn : IpnData) (ps : String) (payment : Payment) (order : Order)
    (s : Store)
    (hcond : map_payment_status ps = PaymentStatus.FINISHED ∧
      payment.payment_status ≠ PaymentStatus.FINISHED)
    (horder : s.findOrder payment.order_id = some order) :
    callbackWrite w now t ipn ps payment s =
      { success := true, fulfilled := true,
        store := finishedBranchStore w now t ipn ps payment order s } := by
  have h1 : (s.updatePayment payment.payment_id
      (mkUpdatedPayment payment (map_payment_status ps) ipn now)).findOrder
        payment.order_id = some order := horder
  simp only [callbackWrite, finishedBranchStore]
  rw [if_pos hcond, h1]

/-- Outside the `FINISHED`-transition condition, the decide-and-write phase
succeeds without fulfillment and only rewrites the payment row. -/
theorem callbackWrite_neg (w : String) (now : ℤ) (t : Nat → String)
    (ipn : IpnData) (ps : String) (payment : Payment) (s : Store)
    (hcond : ¬ (map_payment_status ps = PaymentStatus.FINISHED ∧
      payment.payment_status ≠ PaymentStatus.FINISHED)) :
    callbackWrite w now t ipn ps payment s =
      { success := true, fulfilled := false,
        store := s.updatePayment payment.payment_id
          (mkUpdatedPayment payment (map_payment_status ps) ipn now) } := by
  simp only [callbackWrite]
  rw [if_neg hcond]

/-- The loyalty handler leaves every order lookup unchanged. -/
theorem award_findOrder (s : Store) (o : Order) (i : ℤ) :
    (award_loyalty_points s o).findOrder i = s.findOrder i := by
  unfold Store.findOrder
  rw [award_orders]

/-- The branch store still holds the payment rows written by the
payment-update step: later steps touch only orders, users and loyalty. -/
theorem finishedBranchStore_payments (w : String) (now : ℤ)
    (t : Nat → String) (ipn : IpnData) (ps : String) (payment : Payment)
    (order : Order) (s : Store) :
    (finishedBranchStore w now t ipn ps payment order s).payments =
      updateBy Payment.payment_id payment.payment_id
        (mkUpdatedPayment payment (map_payment_status ps) ipn now)
        s.payments := by
  simp only [finishedBranchStore]
  by_cases hit : ({ order with
      payment_status := PaymentStatus.FINISHED
      status := OrderStatus.PAID
      updated_at := now } : Order).items ≠ []
  · rw [if_pos hit, delivery_payments, award_payments]
    rfl
  · rw [if_neg hit, award_payments]
    rfl

/-- Digital delivery rewrites exactly the delivered order's row: looking it
up afterwards yields the same order with its items run through
`deliverItems`. -/
theorem delivery_findOrder (w : String) (now : ℤ) (t : Nat → String)
    (sB : Store) (o' : Order) (oid : ℤ) (hid : o'.id = oid)
    (hfound : sB.findOrder oid = some o') :
    (process_digital_delivery w now t sB o').findOrder oid =
      some { o' with items := deliverItems w now t o'.items } := by
  unfold process_digital_delivery Store.findOrder Store.updateOrder at *
  rw [hid]
  exact findBy_updateBy_self hfound rfl

/-- Looking the order up in the branch store finds it marked `PAID` with
payment status `FINISHED`. -/
theorem finishedBranchStore_findOrder (w : String) (now : ℤ)
    (t : Nat → String) (ipn : IpnData) (ps : String) (payment : Payment)
    (order : Order) (s : Store)
    (horder : s.findOrder payment.order_id = some order) :
    ∃ o, (finishedBranchStore w now t ipn ps payment order s).findOrder
        payment.order_id = some o ∧
      o.status = OrderStatus.PAID ∧
      o.payment_status = PaymentStatus.FINISHED := by
  have hkeyO : order.id = payment.order_id := findBy_key_eq horder
  have h1 : (s.updatePayment payment.payment_id
      (mkUpdatedPayment payment (map_payment_status ps) ipn now)).findOrder
        payment.order_id = some order := horder
  simp only [finishedBranchStore]
  set order' : Order := { order with
    payment_status := PaymentStatus.FINISHED
    status := OrderStatus.PAID
    updated_at := now } with hOrd
  set s1 : Store := s.updatePayment payment.payment_id
    (mkUpdatedPayment payment (map_payment_status ps) ipn now) with hs1
  set s2 : Store := s1.updateOrder payment.order_id order' with hs2
  set s3 : Store := award_loyalty_points s2 order' with hs3
  have hid' : order'.id = payment.order_id := hkeyO
  have h2 : s2.findOrder payment.order_id = some order' := by
    rw [hs2]
    unfold Store.findOrder Store.updateOrder at *
    exact findBy_updateBy_self h1 hid'
  have h3 : s3.findOrder payment.order_id = some order' := by
    rw [hs3, award_findOrder]
    exact h2
  by_cases hit : order'.items ≠ []
  · rw [if_pos hit]
    exact ⟨{ order' with items := deliverItems w now t order'.items },
      delivery_findOrder w now t s3 order' payment.order_id hid' h3, rfl, rfl⟩
  · rw [if_neg hit]
    exact ⟨order', h3, rfl, rfl⟩

/-- Claim C1: for a known payment (with its order present), the order is
marked `PAID` with payment status `FINISHED` and the fulfillment trigger
fires exactly when the notification maps to `FINISHED` and the stored status
was not `FINISHED`; for every other (old, new) status pair the callback
reports no fulfillment and the orders, users and loyalty tables are
untouched. -/
theorem ipn_finished_transition_iff (w : String) (now : ℤ)
    (t : Nat → String) (ipn : IpnData) (s : Store) (pid ps : String)
    (payment : Payment) (order : Order)
    (hpid : ipn.payment_id = some pid) (hpid' : pid ≠ "")
    (hps : ipn.payment_status = some ps) (hps' : ps ≠ "")
    (hpay : s.findPayment pid = some payment)
    (horder : s.findOrder payment.order_id = some order) :
    ((map_payment_status ps = PaymentStatus.FINISHED ∧
        payment.payment_status ≠ PaymentStatus.FINISHED) →
      (process_ipn_callback w now t ipn s).success = true ∧
      (process_ipn_callback w now t ipn s).fulfilled = true ∧
      ∃ o, (process_ipn_callback w now t ipn s).store.findOrder
          payment.order_id = some o ∧
        o.status = OrderStatus.PAID ∧
        o.payment_status = PaymentStatus.FINISHED) ∧
    (¬ (map_payment_status ps = PaymentStatus.FINISHED ∧
        payment.payment_status ≠ PaymentStatus.FINISHED) →
      (process_ipn_callback w now t ipn s).success = true ∧
      (process_ipn_callback w now t ipn s).fulfilled = false ∧
      (process_ipn_callback w now t ipn s).store.orders = s.orders ∧
      (process_ipn_callback w now t ipn s).store.users = s.users ∧
      (process_ipn_callback w now t ipn s).store.loyalty_transactions =
        s.loyalty_transactions) := by
  rw [process_eq_callbackWrite w now t ipn s pid ps payment hpid hpid' hps
    hps' hpay]
  constructor
  · intro hcond
    rw [callbackWrite_pos w now t ipn ps payment order s hcond horder]
    exact ⟨rfl, rfl, finishedBranchStore_findOrder w now t ipn ps payment
      order s horder⟩
  · intro hcond
    rw [callbackWrite_neg w now t ipn ps payment s hcond]
    exact ⟨rfl, rfl, rfl, rfl, rfl⟩

/-- Witness for C1: the spec's §8 scenario (a `finished` notification for
`np_123` stored as `CONFIRMING`) fires the transition, and the same
notification against the already-`FINISHED` store does not. -/
theorem ipn_finished_transition_iff_witness :
    fxStore.findPayment ("np_123") = some fxPayment ∧
    fxStore.findOrder 1 = some fxOrder ∧
    (map_payment_status ("finished") = PaymentStatus.FINISHED ∧
      fxPayment.payment_status ≠ PaymentStatus.FINISHED) ∧
    (process_ipn_callback fxUrl 100 fxTokens fxFinIpn fxStore).fulfilled
      = true ∧
    ((process_ipn_callback fxUrl 100 fxTokens fxFinIpn
      fxStore).store.findOrder 1).map Order.status = some OrderStatus.PAID := by
  have h := (ipn_finished_transition_iff fxUrl 100 fxTokens fxFinIpn fxStore
    ("np_123") ("finished") fxPayment fxOrder rfl (by decide) rfl (by decide)
    (by decide) (by decide)).1 (by decide)
  refine ⟨by decide, by decide, by decide, h.2.1, ?_⟩
  obtain ⟨o, ho, hs, hp⟩ := h.2.2
  have : fxPayment.order_id = (1 : ℤ) := by decide
  rw [this] at ho
  rw [ho]
  simp [hs]

/-- The updated payment row carries the mapped status. -/
theorem mkUpdatedPayment_payment_status (p : Payment) (st : PaymentStatus)
    (ipn : IpnData) (now : ℤ) :
    (mkUpdatedPayment p st ipn now).payment_status = st := rfl

/-- Looking the payment up in the branch store yields the rewritten row. -/
theorem finishedBranchStore_findPayment (w : String) (now : ℤ)
    (t : Nat → String) (ipn : IpnData) (ps : String) (payment : Payment)
    (order : Order) (s : Store) (pid : String)
    (hpay : s.findPayment pid = some payment)
    (hkey : payment.payment_id = pid) :
    (finishedBranchStore w now t ipn ps payment order s).findPayment pid =
      some (mkUpdatedPayment payment (map_payment_status ps) ipn now) := by
  unfold Store.findPayment
  rw [finishedBranchStore_payments, hkey]
  exact findBy_updateBy_self hpay
    (by rw [mkUpdatedPayment_payment_id]; exact hkey)

/-- Writing the same payment key twice keeps only the second write. -/
theorem updatePayment_collapse (s : Store) (pid : String) (p₁ p₂ : Payment)
    (h : p₁.payment_id = pid) :
    (s.updatePayment pid p₁).updatePayment pid p₂ = s.updatePayment pid p₂ := by
  unfold Store.updatePayment
  rw [updateBy_updateBy h]

/-- Claim C2 (amended): replaying the same notification (same `payment_id`
and `payment_status`, applied at the same clock reading) twice in sequence:
both applications succeed, the store after the second application equals the
store after the first, and the fulfillment trigger fires at most once in
total — on the first application exactly when the notification maps to
`FINISHED` and the stored status was not `FINISHED`, and never on the
second. -/
theorem ipn_replay_idempotent (w : String) (now : ℤ) (t : Nat → String)
    (ipn : IpnData) (s : Store) (pid ps : String) (payment : Payment)
    (order : Order)
    (hpid : ipn.payment_id = some pid) (hpid' : pid ≠ "")
    (hps : ipn.payment_status = some ps) (hps' : ps ≠ "")
    (hpay : s.findPayment pid = some payment)
    (horder : s.findOrder payment.order_id = some order) :
    (process_ipn_callback w now t ipn s).success = true ∧
    (process_ipn_callback w now t ipn
        (process_ipn_callback w now t ipn s).store).success = true ∧
    (process_ipn_callback w now t ipn
        (process_ipn_callback w now t ipn s).store).store =
      (process_ipn_callback w now t ipn s).store ∧
    (process_ipn_callback w now t ipn
        (process_ipn_callback w now t ipn s).store).fulfilled = false ∧
    ((process_ipn_callback w now t ipn s).fulfilled = true ↔
      (map_payment_status ps = PaymentStatus.FINISHED ∧
        payment.payment_status ≠ PaymentStatus.FINISHED)) := by
  have hkey : payment.payment_id = pid := findBy_key_eq hpay
  have hproc1 := process_eq_callbackWrite w now t ipn s pid ps payment hpid
    hpid' hps hps' hpay
  have hpid2 : (mkUpdatedPayment payment (map_payment_status ps) ipn
      now).payment_id = pid := by
    rw [mkUpdatedPayment_payment_id]; exact hkey
  have hncond2 : ¬ (map_payment_status ps = PaymentStatus.FINISHED ∧
      (mkUpdatedPayment payment (map_payment_status ps) ipn
        now).payment_status ≠ PaymentStatus.FINISHED) := by
    intro hh
    exact hh.2 (by rw [mkUpdatedPayment_payment_status]; exact hh.1)
  have hidem := mkUpdatedPayment_idem payment (map_payment_status ps) ipn now
  by_cases hcond : map_payment_status ps = PaymentStatus.FINISHED ∧
      payment.payment_status ≠ PaymentStatus.FINISHED
  · have h1 : process_ipn_callback w now t ipn s =
        { success := true, fulfilled := true,
          store := finishedBranchStore w now t ipn ps payment order s } := by
      rw [hproc1]
      exact callbackWrite_pos w now t ipn ps payment order s hcond horder
    have hfind2 := finishedBranchStore_findPayment w now t ipn ps payment
      order s pid hpay hkey
    have hproc2 := process_eq_callbackWrite w now t ipn
      (finishedBranchStore w now t ipn ps payment order s) pid ps
      (mkUpdatedPayment payment (map_payment_status ps) ipn now) hpid hpid'
      hps hps' hfind2
    have h2 : process_ipn_callback w now t ipn
        (finishedBranchStore w now t ipn ps payment order s) =
        { success := true, fulfilled := false,
          store := (finishedBranchStore w now t ipn ps payment order
            s).updatePayment pid
              (mkUpdatedPayment payment (map_payment_status ps) ipn now) } := by
      rw [hproc2, callbackWrite_neg w now t ipn ps
        (mkUpdatedPayment payment (map_payment_status ps) ipn now)
        (finishedBranchStore w now t ipn ps payment order s) hncond2,
        hidem, hpid2]
    have hSP : (finishedBranchStore w now t ipn ps payment order
        s).updatePayment pid
          (mkUpdatedPayment payment (map_payment_status ps) ipn now) =
        finishedBranchStore w now t ipn ps payment order s := by
      apply Store.ext
      · show updateBy Payment.payment_id pid
          (mkUpdatedPayment payment (map_payment_status ps) ipn now)
          (finishedBranchStore w now t ipn ps payment order s).payments =
          (finishedBranchStore w now t ipn ps payment order s).payments
        rw [finishedBranchStore_payments, hkey, updateBy_updateBy hpid2]
      · rfl
      · rfl
      · rfl
    rw [h1]
    rw [h2, hSP]
    exact ⟨rfl, rfl, rfl, rfl, iff_of_true rfl hcond⟩
  · have h1 : process_ipn_callback w now t ipn s =
        { success := true, fulfilled := false,
          store := s.updatePayment pid
            (mkUpdatedPayment payment (map_payment_status ps) ipn now) } := by
      rw [hproc1, callbackWrite_neg w now t ipn ps payment s hcond, hkey]
    have hfind2 : (s.updatePayment pid
        (mkUpdatedPayment payment (map_payment_status ps) ipn
          now)).findPayment pid =
        some (mkUpdatedPayment payment (map_payment_status ps) ipn now) := by
      unfold Store.findPayment Store.updatePayment
      exact findBy_updateBy_self hpay hpid2
    have hproc2 := process_eq_callbackWrite w now t ipn
      (s.updatePayment pid
        (mkUpdatedPayment payment (map_payment_status ps) ipn now)) pid ps
      (mkUpdatedPayment payment (map_payment_status ps) ipn now) hpid hpid'
      hps hps' hfind2
    have h2 : process_ipn_callback w now t ipn
        (s.updatePayment pid
          (mkUpdatedPayment payment (map_payment_status ps) ipn now)) =
        { success := true, fulfilled := false,
          store := s.updatePayment pid
            (mkUpdatedPayment payment (map_payment_status ps) ipn now) } := by
      rw [hproc2, callbackWrite_neg w now t ipn ps
        (mkUpdatedPayment payment (map_payment_status ps) ipn now)
        (s.updatePayment pid
          (mkUpdatedPayment payment (map_payment_status ps) ipn now))
        hncond2, hidem, hpid2, updatePayment_collapse _ _ _ _ hpid2]
    rw [h1]
    rw [h2]
    exact ⟨rfl, rfl, rfl, rfl, iff_of_false (by simp) hcond⟩

/-- Witness for the amended C2: the §8 replay scenario — the `finished`
notification for `np_123` applied twice. -/
theorem ipn_replay_idempotent_witness :
    fxStore.findPayment ("np_123") = some fxPayment ∧
    fxStore.findOrder fxPayment.order_id = some fxOrder ∧
    (process_ipn_callback fxUrl 100 fxTokens fxFinIpn fxStore).success =
      true ∧
    (process_ipn_callback fxUrl 100 fxTokens fxFinIpn
        (process_ipn_callback fxUrl 100 fxTokens fxFinIpn fxStore).store).store
      = (process_ipn_callback fxUrl 100 fxTokens fxFinIpn fxStore).store ∧
    (process_ipn_callback fxUrl 100 fxTokens fxFinIpn
        (process_ipn_callback fxUrl 100 fxTokens fxFinIpn
          fxStore).store).fulfilled = false := by
  have h := ipn_replay_idempotent fxUrl 100 fxTokens fxFinIpn fxStore
    ("np_123") ("finished") fxPayment fxOrder rfl (by decide) rfl (by decide)
    (by decide) (by decide)
  exact ⟨by decide, by decide, h.1, h.2.2.1, h.2.2.2.1⟩

/-- First application of the `waiting` notification to the base store. -/
def fxWaitRun1 : CallbackResult :=
  process_ipn_callback fxUrl 100 fxTokens fxWaitIpn fxStore

/-- Second (replayed) application of the same `waiting` notification. -/
def fxWaitRun2 : CallbackResult :=
  process_ipn_callback fxUrl 100 fxTokens fxWaitIpn fxWaitRun1.store

/-- Counterexample to claim C2 as stated: replaying a `waiting` notification
twice succeeds both times, but the fulfillment side effects run ZERO times
in total — not exactly once as the claim asserts for every notification: no
loyalty row is appended and the user's balance stays 0. -/
theorem ipn_replay_counterexample :
    fxWaitRun1.success = true ∧
    fxWaitRun2.success = true ∧
    fxWaitRun1.fulfilled = false ∧
    fxWaitRun2.fulfilled = false ∧
    fxWaitRun2.store.loyalty_transactions.length = 0 ∧
    ¬ fxWaitRun2.store.loyalty_transactions.length = 1 ∧
    (fxWaitRun2.store.findUser 7).map User.loyalty_points = some 0 := by
  decide

/-- Both concurrent callers poised to deliver against the base store. -/
def fxRaceStart : ConcSystem :=
  { store := fxStore, thread0 := ThreadPh.beforeRead,
    thread1 := ThreadPh.beforeRead }

/-- The interleaving read-read-write-write of two deliveries of the same
`finished` notification. -/
def fxRaceEnd : ConcSystem :=
  runSched fxUrl 100 fxTokens fxFinIpn [false, true, false, true] fxRaceStart

/-- Claim C5 is violated by the code: with no row lock and no
compare-and-set around the read-modify-write, the interleaving in which both
callers read the `CONFIRMING` snapshot before either commits makes BOTH
observe `old_status != FINISHED` (both threads finish as
`done true true`), so two `LoyaltyTransaction` rows are appended — not one —
and the user is double-awarded (100 points for a 50.00 order). -/
theorem concurrent_double_fulfillment :
    fxRaceEnd.thread0 = ThreadPh.done true true ∧
    fxRaceEnd.thread1 = ThreadPh.done true true ∧
    fxRaceEnd.store.loyalty_transactions.length = 2 ∧
    ¬ fxRaceEnd.store.loyalty_transactions.length = 1 ∧
    (fxRaceEnd.store.findUser 7).map User.loyalty_points = some 100 := by
  decide

/-- A digital product with no stored file URL. -/
def fxNoUrlProduct : Product :=
  { product_type := ProductType.DIGITAL, digital_file_url := none,
    download_limit := some 5, download_expiry_days := some 30 }

/-- A line item for the URL-less digital product. -/
def fxNoUrlItem : OrderItem :=
  { product := fxNoUrlProduct, download_links := none,
    download_expires_at := none }

/-- An order holding only the URL-less digital item. -/
def fxDigOrder : Order :=
  { id := 2, order_number := "ORD-2", user_id := 7,
    status := OrderStatus.PAID, payment_status := PaymentStatus.FINISHED,
    total_amount := 10, updated_at := 0, items := [fxNoUrlItem] }

/-- Store containing only `fxDigOrder`. -/
def fxDigStore : Store :=
  { payments := [], orders := [fxDigOrder], users := [],
    loyalty_transactions := [] }

/-- Counterexample to claim C7 as stated: running digital delivery on a
digital line item whose product has NO `digital_file_url` sets the expiry
but stores an EMPTY link list — the item receives no download token at
all; the same happens when the URL column holds the empty string (Python
truthiness). -/
theorem digital_delivery_no_token_counterexample :
    ((process_digital_delivery fxUrl 100 fxTokens fxDigStore
        fxDigOrder).findOrder 2).map Order.items =
      some [{ product := fxNoUrlProduct, download_links := some [],
              download_expires_at := some (100 + 30 * 86400) }] ∧
    ((process_digital_delivery fxUrl 100 fxTokens fxDigStore
        fxDigOrder).findOrder 2).map
      (fun o => o.items.map (fun it => (it.download_links.getD []).length)) =
        some [0] ∧
    (deliverItem fxUrl 100 (fxTokens 0)
        { product := { product_type := ProductType.DIGITAL
                       digital_file_url := some ("")
                       download_limit := some 5
                       download_expiry_days := some 30 }
          download_links := none
          download_expires_at := none }).download_links = some [] := by decide

/-- Position-indexed characterization of `deliverItemsFrom`. -/
theorem deliverItemsFrom_getElem (w : String) (now : ℤ) (t : Nat → String)
    (items : List OrderItem) :
    ∀ (start i : Nat),
      (deliverItemsFrom w now t start items)[i]? =
        (items[i]?).map (deliverItem w now (t (start + i))) := by
  induction items with
  | nil => intro start i; simp [deliverItemsFrom]
  | cons x xs ih =>
    intro start i
    cases i with
    | zero => simp [deliverItemsFrom]
    | succ n =>
      simp only [deliverItemsFrom, List.getElem?_cons_succ]
      rw [ih (start + 1) n]
      have : start + 1 + n = start + (n + 1) := by omega
      rw [this]

/-- Position-indexed characterization of `deliverItems`: item `i` is
rewritten by `deliverItem` using the `i`-th fresh token. -/
theorem deliverItems_getElem (w : String) (now : ℤ) (t : Nat → String)
    (items : List OrderItem) (i : Nat) :
    (deliverItems w now t items)[i]? =
      (items[i]?).map (deliverItem w now (t i)) := by
  have h := deliverItemsFrom_getElem w now t items 0 i
  rw [deliverItems, h, Nat.zero_add]

/-- Claim C7 (amended): digital delivery rewrites each line item in place;
a PHYSICAL item is left completely unchanged; a DIGITAL item has its
`download_expires_at` set to the fulfillment time plus the product's
configured expiry days (30 when unset or 0) and its `download_links` set to
a single tokenised link carrying the configured download limit (5 when
unset or 0) when the product's `digital_file_url` is truthy, and to an
EMPTY list — no token — when the URL is absent or the empty string. -/
theorem digital_delivery_spec (w : String) (now : ℤ) (t : Nat → String)
    (s : Store) (order : Order) (i : Nat) (item : OrderItem)
    (horder : s.findOrder order.id = some order)
    (hi : order.items[i]? = some item) :
    (((process_digital_delivery w now t s order).findOrder order.id).map
        (fun o => o.items[i]?)) =
      some (some (deliverItem w now (t i) item)) ∧
    (item.product.product_type = ProductType.PHYSICAL →
      deliverItem w now (t i) item = item) ∧
    (item.product.product_type = ProductType.DIGITAL →
      (deliverItem w now (t i) item).download_expires_at =
        some (now + pyOrInt item.product.download_expiry_days 30 * 86400) ∧
      (deliverItem w now (t i) item).download_links =
        some (if falsyStr item.product.digital_file_url then []
          else
            [{ url := w ++ "/download/" ++ t i
               token := t i
               expires_at :=
                 now + pyOrInt item.product.download_expiry_days 30 * 86400
               download_limit := pyOrInt item.product.download_limit 5 }])) := by
  refine ⟨?_, ?_, ?_⟩
  · rw [delivery_findOrder w now t s order order.id rfl horder]
    simp [deliverItems_getElem, hi]
  · intro hphys
    unfold deliverItem
    rw [hphys]
    simp
  · intro hdig
    unfold deliverItem
    rw [hdig]
    by_cases hurl : falsyStr item.product.digital_file_url <;> simp [hurl]

/-- A digital product with a stored file URL, custom expiry and limit. -/
def fxUrlProduct : Product :=
  { product_type := ProductType.DIGITAL,
    digital_file_url := some ("https://cdn.example/file.bin"),
    download_limit := some 3, download_expiry_days := some 10 }

/-- A line item for the URL-carrying digital product. -/
def fxUrlItem : OrderItem :=
  { product := fxUrlProduct, download_links := none,
    download_expires_at := none }

/-- An order holding the URL-carrying digital item. -/
def fxDelOrder : Order :=
  { id := 3, order_number := "ORD-3", user_id := 7,
    status := OrderStatus.PAID, payment_status := PaymentStatus.FINISHED,
    total_amount := 10, updated_at := 0, items := [fxUrlItem] }

/-- Store containing only `fxDelOrder`. -/
def fxDelStore : Store :=
  { payments := [], orders := [fxDelOrder], users := [],
    loyalty_transactions := [] }

/-- Witness for the amended C7: the URL-carrying digital item receives one
tokenised link with the configured 10-day expiry and limit 3. -/
theorem digital_delivery_spec_witness :
    fxDelStore.findOrder 3 = some fxDelOrder ∧
    fxDelOrder.items[0]? = some fxUrlItem ∧
    (deliverItem fxUrl 100 (fxTokens 0) fxUrlItem).download_links =
      some [{ url := fxUrl ++ "/download/" ++ fxTokens 0
              token := fxTokens 0
              expires_at := 100 + 10 * 86400
              download_limit := 3 }] ∧
    (((process_digital_delivery fxUrl 100 fxTokens fxDelStore
        fxDelOrder).findOrder 3).map (fun o => o.items[0]?)) =
      some (some (deliverItem fxUrl 100 (fxTokens 0) fxUrlItem)) := by
  have h := digital_delivery_spec fxUrl 100 fxTokens fxDelStore fxDelOrder 0
    fxUrlItem (by decide) (by decide)
  exact ⟨by decide, by decide, by decide, h.1⟩

/-- Concrete digest function standing in for HMAC-SHA512. -/
def fxHmac : String → String → String := fun k b => k ++ "|" ++ b

/-- Concrete body parse standing in for `json.loads`: yields the
unknown-payment notification. -/
def fxParseUnknown : String → Option IpnData := fun _ => some fxUnknownIpn

/-- A correctly signed webhook request for the unknown-payment body. -/
def fxSignedReq : HttpRequest :=
  { sig_header := some (fxHmac ("sec") ("rawbody")), body := "rawbody" }

/-- Claim C9 is violated by the code: under FastAPI semantics the endpoint
answers HTTP 200 on EVERY path.  A validly signed notification with an
unknown payment id is answered 200 with the JSON-encoded tuple
`[..., 400]` (FastAPI does not unpack Flask-style tuples), and a request
with a wrong signature is answered 200 as well, because the raised
`HTTPException` is swallowed by the endpoint's own `except Exception`
clause.  The claim requires a non-2xx status on both paths. -/
theorem ipn_endpoint_returns_200_on_errors :
    payment_ipn fxHmac fxParseUnknown ("sec") fxUrl 100 fxTokens fxSignedReq
        fxStore =
      { response := { statusCode := 200, body := IpnRespBody.errorTuple400 }
        invokedProcess := true
        store := fxStore } ∧
    payment_ipn fxHmac fxParseUnknown ("sec") fxUrl 100 fxTokens
        { sig_header := some ("badsig"), body := "rawbody" } fxStore =
      { response := { statusCode := 200
                      body := IpnRespBody.exceptionTuple500 }
        invokedProcess := false
        store := fxStore } := by decide

end TgShop
